import Mathlib

/-!
Shallow embedding of `src/consulting/careignition/Export_Networks_Individually.py`.

The script has two pipelines:
* `export_org_id_to_csv` : paginated GET over organizations, flatten, write CSV;
* `fetch_all_data` / `extract_networks` / top-level orchestration : paginated GET
  over practitioner roles, extract network-reference extensions, write CSV.

JSON values are modelled by the inductive `Json`; Python dictionary operations
(`d[k]`, `d.get(k)`, `d.get(k, default)`, `k in d`) are modelled as functions
into `Except PyErr`, so that unguarded accesses surface as `PyErr.keyError`.
HTTP is modelled by a pure `Server` function from a URL and request headers to a
`Response`; the `while` pagination loops take a fuel parameter and return `none`
when the fuel runs out (the real loop would simply keep going).  File writes are
modelled as the list of CSV lines produced, and `print` calls as a log of
printed strings.
-/

/-- A JSON value, as produced by `response.json()`. -/
inductive Json where
  | null
  | str (s : String)
  | arr (elems : List Json)
  | obj (fields : List (String × Json))

/-- A Python exception, as far as this script can raise one: `KeyError` from an
unguarded `d[k]`, `TypeError`-like faults from using a non-dict/non-list/non-str
where one is required, and a generic `Exception(msg)`. -/
inductive PyErr where
  | keyError (key : String)
  | typeError (msg : String)
  | exception (msg : String)
deriving DecidableEq

/-- Lookup of a key in the field list of a JSON object (Python dict lookup). -/
def lookupField : List (String × Json) → String → Option Json
  | [], _ => none
  | (k, v) :: rest, key => if k = key then some v else lookupField rest key

/-- Python `d.get(k)`: `none` when the key is absent; a fault on a non-dict. -/
def Json.pyGet (j : Json) (key : String) : Except PyErr (Option Json) :=
  match j with
  | .obj fields => .ok (lookupField fields key)
  | _ => .error (.typeError "get on a non-dict")

/-- Python `d.get(k, default)`. -/
def Json.pyGetD (j : Json) (key : String) (dflt : Json) : Except PyErr Json :=
  match j.pyGet key with
  | .ok (some v) => .ok v
  | .ok none => .ok dflt
  | .error e => .error e

/-- Python `d[k]`: `KeyError` when the key is absent. -/
def Json.item (j : Json) (key : String) : Except PyErr Json :=
  match j with
  | .obj fields =>
    match lookupField fields key with
    | some v => .ok v
    | none => .error (.keyError key)
  | _ => .error (.typeError "subscript on a non-dict")

/-- Python `k in d` for a JSON object (false on non-objects). -/
def Json.hasKey (j : Json) (key : String) : Bool :=
  match j with
  | .obj fields => (lookupField fields key).isSome
  | _ => false

/-- Elimination of a JSON value that the script iterates over as a list. -/
def Json.asList : Json → Except PyErr (List Json)
  | .arr xs => .ok xs
  | _ => .error (.typeError "not a list")

/-- Elimination of a JSON value used where Python requires a `str`. -/
def Json.asString : Json → Except PyErr String
  | .str s => .ok s
  | _ => .error (.typeError "not a string")

/-- Python `j == "s"` for a JSON value against a string literal. -/
def Json.isStr (j : Json) (s : String) : Bool :=
  match j with
  | .str t => t = s
  | _ => false

/-- A single-quote character, as printed by Python reprs. -/
def squote : String := String.singleton (Char.ofNat 39)

/-- A double-quote character, the CSV quote character. -/
def dquote : String := String.singleton (Char.ofNat 34)

/-- Python `sep.join` on a list of strings already known to be strings. -/
def joinStrings (sep : String) : List String → String
  | [] => ""
  | [x] => x
  | x :: xs => x ++ sep ++ joinStrings sep xs

mutual
/-- Python `repr` of a JSON value (used by `str` on non-string values that end
up in a CSV cell; string-escaping subtleties inside reprs are not modelled). -/
def Json.pyRepr : Json → String
  | .null => "None"
  | .str s => squote ++ s ++ squote
  | .arr xs => "[" ++ Json.pyReprElems xs ++ "]"
  | .obj fs => "\x7b" ++ Json.pyReprFields fs ++ "\x7d"

/-- Comma-separated reprs of the elements of a JSON array. -/
def Json.pyReprElems : List Json → String
  | [] => ""
  | [x] => Json.pyRepr x
  | x :: xs => Json.pyRepr x ++ ", " ++ Json.pyReprElems xs

/-- Comma-separated `key: value` reprs of the fields of a JSON object. -/
def Json.pyReprFields : List (String × Json) → String
  | [] => ""
  | [(k, v)] => squote ++ k ++ squote ++ ": " ++ Json.pyRepr v
  | (k, v) :: fs => squote ++ k ++ squote ++ ": " ++ Json.pyRepr v ++ ", " ++ Json.pyReprFields fs
end

/-- Python `str` of a JSON value, as `csv.writer`/`csv.DictWriter` apply it to
each cell value before writing. -/
def Json.pyStr : Json → String
  | .str s => s
  | j => j.pyRepr

/-- Whether `csv.writer`'s minimal quoting must quote a field: it contains the
delimiter, the quote character, or a line-terminator character. -/
def needsQuote (s : String) : Bool :=
  s.data.any fun c => c == ',' || c == Char.ofNat 34 || c == Char.ofNat 13 || c == Char.ofNat 10

/-- CSV quote-escaping: the quote character is doubled. -/
def escQuotes (s : String) : String :=
  String.mk (s.data.foldr
    (fun c acc => if c == Char.ofNat 34 then Char.ofNat 34 :: Char.ofNat 34 :: acc else c :: acc)
    [])

/-- One CSV field under the default (minimal-quoting) dialect. -/
def csvQuoteField (s : String) : String :=
  if needsQuote s then dquote ++ escQuotes s ++ dquote else s

/-- One CSV line: quoted fields joined by the comma delimiter. -/
def csvRow (fields : List String) : String :=
  joinStrings "," (fields.map csvQuoteField)

/-- An HTTP response, restricted to the two things the script reads:
`response.status_code` and `response.json()`. -/
structure Response where
  status_code : Nat
  json : Json

/-- The HTTP layer: `requests.get(url, headers=headers)` as a pure function of
the URL and the header list (`[]` when no headers are passed). -/
abbrev Server := String → List (String × String) → Response

/-- The headers of the organization pipeline: `{"Accept": "application/fhir+json"}`. -/
def orgHeaders : List (String × String) := [("Accept", "application/fhir+json")]

/-- The next-page scan of `export_org_id_to_csv`:
`for link in ...: if link.get('relation') == 'next': api_url_1 = link.get('url'); break`.
Returns the new value of `api_url_1` (`none` when no `next` link is found, or
when the matching link has no `url` key). -/
def findNextOrg : List Json → Except PyErr (Option String)
  | [] => .ok none
  | link :: rest => do
    let rel ← link.pyGet "relation"
    if (rel.getD Json.null).isStr "next" then do
      match ← link.pyGet "url" with
      | some u => do
        let s ← u.asString
        .ok (some s)
      | none => .ok none
    else
      findNextOrg rest

/-- The pagination loop of `export_org_id_to_csv` (lines 31-49).  State:
`(all_entries, number of GET requests issued so far, printed messages)`.
`urlOpt = none` (or the falsy `""`) means `while api_url_1:` exits.  Returns
`none` when the fuel runs out. -/
def export_org_fetch (server : Server) (fuel : Nat) (urlOpt : Option String)
    (st : List Json × Nat × List String) :
    Except PyErr (Option (List Json × Nat × List String)) :=
  match urlOpt with
  | none => .ok (some st)
  | some url =>
    if url = "" then .ok (some st)
    else
      match fuel with
      | 0 => .ok none
      | fuel' + 1 =>
        let response := server url orgHeaders
        if response.status_code = 200 then do
          let data := response.json
          let pageEntries ← Json.asList (← data.pyGetD "entry" (Json.arr []))
          let links ← Json.asList (← data.pyGetD "link" (Json.arr []))
          let next ← findNextOrg links
          export_org_fetch server fuel' next (st.1 ++ pageEntries, st.2.1 + 1, st.2.2)
        else
          .ok (some (st.1, st.2.1 + 1,
            st.2.2 ++ ["Failed to retrieve data: " ++ toString response.status_code]))

/-- The list comprehension `[identifier.get('value', '') for identifier in identifiers]`. -/
def identifierValues : List Json → Except PyErr (List Json)
  | [] => .ok []
  | i :: rest => do
    let v ← i.pyGetD "value" (Json.str "")
    let vs ← identifierValues rest
    .ok (v :: vs)

/-- Python `sep.join(values)` over JSON values: a fault unless all are strings. -/
def pyJoin (sep : String) : List Json → Except PyErr String
  | [] => .ok ""
  | [x] => x.asString
  | x :: xs => do
    let s ← x.asString
    let rest ← pyJoin sep xs
    .ok (s ++ sep ++ rest)

/-- The per-entry flattening of `export_org_id_to_csv` (lines 59-71): the three
cell strings `[str(org_id), str(org_name), identifier_str]` of one data row. -/
def flatten_org_entry (entry : Json) : Except PyErr (List String) := do
  let organization ← entry.pyGetD "resource" (Json.obj [])
  let org_id ← organization.pyGetD "id" (Json.str "")
  let org_name ← organization.pyGetD "name" (Json.str "")
  let identifiers ← Json.asList (← organization.pyGetD "identifier" (Json.arr []))
  let identifier_values ← identifierValues identifiers
  let identifier_str ← pyJoin ", " identifier_values
  .ok [org_id.pyStr, org_name.pyStr, identifier_str]

/-- Flattening of every accumulated entry, in order. -/
def export_org_rows : List Json → Except PyErr (List (List String))
  | [] => .ok []
  | e :: es => do
    let r ← flatten_org_entry e
    let rest ← export_org_rows es
    .ok (r :: rest)

/-- The CSV write of `export_org_id_to_csv` (lines 52-71): the lines of the
output file, header row first. -/
def export_org_write (all_entries : List Json) : Except PyErr (List String) := do
  let rows ← export_org_rows all_entries
  .ok (csvRow ["id", "name", "identifiers"] :: rows.map csvRow)

/-- The whole organization pipeline `export_org_id_to_csv(api_url_1, filename)`:
pagination, flattening, CSV write and the final `print`.  Result (when the fuel
suffices): the file's lines, the number of GET requests issued, and the printed
messages. -/
def export_org_id_to_csv (server : Server) (fuel : Nat) (api_url_1 : String)
    (filename : String) : Except PyErr (Option (List String × Nat × List String)) := do
  match ← export_org_fetch server fuel (some api_url_1) ([], 0, []) with
  | none => .ok none
  | some (all_entries, reqs, log) => do
    let file ← export_org_write all_entries
    .ok (some (file, reqs, log ++ ["Data has been exported to " ++ filename]))

/-- The next-page scan of `fetch_all_data`:
`for link in ...: if link['relation'] == 'next': api_url_2 = link['url']; break`.
Unlike `findNextOrg`, the accesses `link['relation']` and `link['url']` are
unguarded. -/
def findNextNet : List Json → Except PyErr (Option String)
  | [] => .ok none
  | link :: rest => do
    let rel ← link.item "relation"
    if rel.isStr "next" then do
      let u ← link.item "url"
      let s ← u.asString
      .ok (some s)
    else
      findNextNet rest

/-- The pagination loop `fetch_all_data(api_url_2)` (lines 107-123).  State:
`(all_data, number of GET requests issued so far)`.  A non-200 response raises
`Exception(f"Failed to fetch data. Status code: {...}")`.  Returns `none` when
the fuel runs out. -/
def fetch_all_data (server : Server) (fuel : Nat) (urlOpt : Option String)
    (st : List Json × Nat) : Except PyErr (Option (List Json × Nat)) :=
  match urlOpt with
  | none => .ok (some st)
  | some url =>
    if url = "" then .ok (some st)
    else
      match fuel with
      | 0 => .ok none
      | fuel' + 1 =>
        let response := server url []
        if response.status_code = 200 then do
          let data := response.json
          let all_data ←
            if data.hasKey "entry" then do
              let es ← Json.asList (← data.item "entry")
              pure (st.1 ++ es)
            else
              pure st.1
          let links ← Json.asList (← data.pyGetD "link" (Json.arr []))
          let next ← findNextNet links
          fetch_all_data server fuel' next (all_data, st.2 + 1)
        else
          .error (.exception ("Failed to fetch data. Status code: " ++
            toString response.status_code))

/-- The fixed extension-URL constant of `extract_networks`. -/
def network_url : String :=
  "http://hl7.org/fhir/us/davinci-pdex-plan-net/StructureDefinition/network-reference"

/-- One row appended by `extract_networks`:
`{'practitionerRole': ..., 'network': ...}`. -/
structure NetworkRow where
  practitionerRole : Json
  network : Json

/-- The inner loop of `extract_networks` over `practitioner_role.get('extension', [])`:
one row per extension whose `url` equals `network_url`. -/
def extract_from_exts (practitioner_role : Json) : List Json → Except PyErr (List NetworkRow)
  | [] => .ok []
  | ext :: rest => do
    let u ← ext.item "url"
    let here ←
      if u.isStr network_url then do
        let value_reference ← ext.pyGetD "valueReference" (Json.obj [])
        let prid ← practitioner_role.item "id"
        let fallback ← value_reference.pyGetD "reference" (Json.str "Unknown")
        let network ← value_reference.pyGetD "display" fallback
        pure [NetworkRow.mk prid network]
      else
        pure []
    let more ← extract_from_exts practitioner_role rest
    .ok (here ++ more)

/-- The body of `extract_networks`'s outer loop for one entry of `data`:
the unguarded `entry['resource']`, then the extension scan. -/
def extract_networks_entry (entry : Json) : Except PyErr (List NetworkRow) := do
  let practitioner_role ← entry.item "resource"
  let exts ← Json.asList (← practitioner_role.pyGetD "extension" (Json.arr []))
  extract_from_exts practitioner_role exts

/-- `extract_networks(data)` (lines 134-145): all rows, in entry order then
in-entry extension order. -/
def extract_networks : List Json → Except PyErr (List NetworkRow)
  | [] => .ok []
  | entry :: rest => do
    let here ← extract_networks_entry entry
    let more ← extract_networks rest
    .ok (here ++ more)

/-- The `csv.DictWriter` block of the orchestration (lines 168-174): header row
`practitionerRole,network`, then one row per network record, fields in the
`fieldnames` order. -/
def write_networks (networks : List NetworkRow) : List String :=
  csvRow ["practitionerRole", "network"] ::
    networks.map fun n => csvRow [n.practitionerRole.pyStr, n.network.pyStr]

/-- What a caught exception prints: the message for `Exception(msg)`, the
quoted key for a `KeyError`. -/
def PyErr.printed : PyErr → String
  | .keyError k => squote ++ k ++ squote
  | .typeError m => m
  | .exception m => m

/-- The top-level `try/except` orchestration of the network pipeline
(lines 161-178).  Result `none` when the fuel runs out; otherwise
`some (file, printed)` where `file` is `some` CSV lines when the file was
written and `none` when the pipeline aborted before `open`, and `printed` is
the list of printed messages. -/
def run_network_pipeline (server : Server) (fuel : Nat) (api_url_2 : String) :
    Option (Option (List String) × List String) :=
  match fetch_all_data server fuel (some api_url_2) ([], 0) with
  | .ok none => none
  | .ok (some (data, _)) =>
    match extract_networks data with
    | .ok networks =>
      some (some (write_networks networks),
        ["Associated networks have been saved to " ++ squote ++
          "associated_networks.csv" ++ squote])
    | .error e => some (none, [e.printed])
  | .error e => some (none, [e.printed])

/-- The link list of a chained page: a single `next` link when there is a
following page, no links on the last page. -/
def chainLinks : Option String → List Json
  | some u => [Json.obj [("relation", Json.str "next"), ("url", Json.str u)]]
  | none => []

/-- The body of one page of a chain: its `entry` collection and its links. -/
def chainBody (entries : List Json) (next : Option String) : Json :=
  Json.obj [("entry", Json.arr entries), ("link", Json.arr (chainLinks next))]

/-- A server presenting a chain of pages at the given URLs: page `i` holds the
`i`-th entry list and a `next` link to page `i+1`, the last page no `next`
link (whatever the request headers). -/
def ChainServer (server : Server) : List String → List (List Json) → Prop
  | [], [] => True
  | url :: urls, pageEntries :: pages =>
    (∀ hs, server url hs = ⟨200, chainBody pageEntries urls.head?⟩) ∧
      ChainServer server urls pages
  | _, _ => False

/-- A field that is present exactly when the optional value is present. -/
def optField (key : String) : Option Json → List (String × Json)
  | none => []
  | some v => [(key, v)]

/-- An organization entry with optional `id`, `name` and `identifier` fields;
each identifier object has an optional `value` field. -/
def orgEntry (oid oname : Option String) (vals : Option (List (Option String))) : Json :=
  Json.obj [("resource", Json.obj (
    optField "id" (oid.map Json.str) ++
    optField "name" (oname.map Json.str) ++
    optField "identifier" (vals.map fun vs =>
      Json.arr (vs.map fun v => Json.obj (optField "value" (v.map Json.str))))))]

/-- An extension object with the given `url` and an optional `valueReference`
holding optional `display` and `reference` fields. -/
def mkExt (url : String) (vr : Option (Option String × Option String)) : Json :=
  Json.obj (("url", Json.str url) ::
    optField "valueReference" (vr.map fun dr =>
      Json.obj (optField "display" (dr.1.map Json.str) ++
        optField "reference" (dr.2.map Json.str))))

/-- A practitioner-role entry with the given `id` and extensions, each given by
its `url` and optional `valueReference` content. -/
def mkPRole (pid : String)
    (exts : List (String × Option (Option String × Option String))) : Json :=
  Json.obj [("resource", Json.obj [("id", Json.str pid),
    ("extension", Json.arr (exts.map fun e => mkExt e.1 e.2))])]

/-- The network name as the spec describes it: the `valueReference`'s `display`
field when present, else its `reference` field when present, else `"Unknown"`. -/
def specNetworkName : Option (Option String × Option String) → String
  | none => "Unknown"
  | some dr => dr.1.getD (dr.2.getD "Unknown")

/-- A small concrete entry used by the concrete servers below. -/
def demoEntry (tag : String) : Json :=
  Json.obj [("resource", Json.obj [("id", Json.str tag)])]

/-- A concrete two-page chain server. -/
def demoChainServer : Server := fun url _ =>
  if url = "pageA" then ⟨200, chainBody [demoEntry "o1"] (some "pageB")⟩
  else if url = "pageB" then ⟨200, chainBody [demoEntry "o2"] none⟩
  else ⟨404, Json.obj []⟩

/-- A concrete server that always answers with status 500. -/
def demoFailServer : Server := fun _ _ => ⟨500, Json.obj []⟩

/-- A concrete server whose single page has a link object with no `relation`
key. -/
def demoBadLinkServer : Server := fun _ _ =>
  ⟨200, Json.obj [("entry", Json.arr [demoEntry "x"]),
    ("link", Json.arr [Json.obj [("url", Json.str "loop")]])]⟩

/-- Bind on `Except` reduces on an `ok`. -/
@[simp] theorem pyOkBind {α β : Type} (a : α) (f : α → Except PyErr β) :
    (Except.ok a : Except PyErr α) >>= f = f a := rfl

/-- Bind on `Except` reduces on an `error`. -/
@[simp] theorem pyErrorBind {α β : Type} (e : PyErr) (f : α → Except PyErr β) :
    (Except.error e : Except PyErr α) >>= f = Except.error e := rfl

/-- Bind on `Except` reduces on a `pure`. -/
@[simp] theorem pyPureBind {α β : Type} (a : α) (f : α → Except PyErr β) :
    (pure a : Except PyErr α) >>= f = f a := rfl

/-- `d[k]` on an object literal reduces to the field lookup. -/
@[simp] theorem Json_item_obj (fields : List (String × Json)) (key : String) :
    (Json.obj fields).item key = (match lookupField fields key with
      | some v => .ok v
      | none => .error (.keyError key)) := rfl

/-- `d.get(k)` on an object literal reduces to the field lookup. -/
@[simp] theorem Json_pyGet_obj (fields : List (String × Json)) (key : String) :
    (Json.obj fields).pyGet key = .ok (lookupField fields key) := rfl

/-- `asList` on an array literal reduces to its elements. -/
@[simp] theorem Json_asList_arr (xs : List Json) : (Json.arr xs).asList = .ok xs := rfl

/-- A `ChainServer` relates URL and page lists of equal length. -/
theorem chainServer_length (server : Server) :
    ∀ urls pages, ChainServer server urls pages → urls.length = pages.length := by
  intro urls
  induction urls with
  | nil => intro pages h; cases pages with
    | nil => rfl
    | cons p ps => exact absurd h (by simp [ChainServer])
  | cons u us ih => intro pages h; cases pages with
    | nil => exact absurd h (by simp [ChainServer])
    | cons p ps => simpa [ChainServer] using congrArg Nat.succ (ih ps h.2)

/-- The organization next-page scan follows the single `next` link of a chained
page (and stops on the last page). -/
theorem findNextOrg_chainLinks (next : Option String) :
    findNextOrg (chainLinks next) = .ok next := by
  cases next <;> simp [chainLinks, findNextOrg, Json.pyGet, lookupField, Json.isStr,
    Json.asString]

/-- The network next-page scan follows the single `next` link of a chained page
(and stops on the last page). -/
theorem findNextNet_chainLinks (next : Option String) :
    findNextNet (chainLinks next) = .ok next := by
  cases next <;> simp [chainLinks, findNextNet, Json.item, lookupField, Json.isStr,
    Json.asString]

/-- Running the organization pagination loop over a chain of pages: every page
is fetched once, its entries appended in order. -/
theorem export_org_fetch_chain (server : Server) :
    ∀ (urls : List String) (pages : List (List Json)),
    ChainServer server urls pages → (∀ u ∈ urls, u ≠ "") →
    ∀ (st : List Json × Nat × List String) (fuel : Nat), urls.length ≤ fuel →
    export_org_fetch server fuel urls.head? st =
      .ok (some (st.1 ++ pages.flatten, st.2.1 + urls.length, st.2.2)) := by
  intro urls
  induction urls with
  | nil =>
    intro pages h _ st fuel _
    cases pages with
    | nil => simp [export_org_fetch]
    | cons p ps => exact absurd h (by simp [ChainServer])
  | cons u us ih =>
    intro pages h hne st fuel hfuel
    cases pages with
    | nil => exact absurd h (by simp [ChainServer])
    | cons p ps =>
      obtain ⟨hu, hcs⟩ := h
      cases fuel with
      | zero => simp at hfuel
      | succ fuel' =>
        have hu' : u ≠ "" := hne u (by simp)
        rw [List.head?_cons, export_org_fetch]
        simp only [hu', hu orgHeaders, chainBody, Json.pyGetD, Json.pyGet, lookupField,
          Json.asList, findNextOrg_chainLinks, pyOkBind, String.reduceEq, reduceIte,
          reduceCtorEq, ite_false, ite_true, if_false, if_true]
        rw [ih ps hcs (fun v hv => hne v (by simp [hv]))
          (st.1 ++ p, st.2.1 + 1, st.2.2) fuel' (Nat.le_of_succ_le_succ hfuel)]
        simp [List.append_assoc]
        omega

/-- Running the network pagination loop over a chain of pages: every page is
fetched once, its entries appended in order. -/
theorem fetch_all_data_chain (server : Server) :
    ∀ (urls : List String) (pages : List (List Json)),
    ChainServer server urls pages → (∀ u ∈ urls, u ≠ "") →
    ∀ (st : List Json × Nat) (fuel : Nat), urls.length ≤ fuel →
    fetch_all_data server fuel urls.head? st =
      .ok (some (st.1 ++ pages.flatten, st.2 + urls.length)) := by
  intro urls
  induction urls with
  | nil =>
    intro pages h _ st fuel _
    cases pages with
    | nil => simp [fetch_all_data]
    | cons p ps => exact absurd h (by simp [ChainServer])
  | cons u us ih =>
    intro pages h hne st fuel hfuel
    cases pages with
    | nil => exact absurd h (by simp [ChainServer])
    | cons p ps =>
      obtain ⟨hu, hcs⟩ := h
      cases fuel with
      | zero => simp at hfuel
      | succ fuel' =>
        have hu' : u ≠ "" := hne u (by simp)
        rw [List.head?_cons, fetch_all_data]
        simp only [hu', hu [], chainBody, Json.hasKey, Json.item, Json.pyGetD, Json.pyGet,
          lookupField, Json.asList, findNextNet_chainLinks, pyOkBind, pyPureBind,
          String.reduceEq, reduceIte, reduceCtorEq, ite_false, ite_true, if_false, if_true,
          Option.isSome]
        rw [ih ps hcs (fun v hv => hne v (by simp [hv]))
          (st.1 ++ p, st.2 + 1) fuel' (Nat.le_of_succ_le_succ hfuel)]
        simp [List.append_assoc]
        omega

/-- C1: over a chain of N pages (pages 1..N-1 carrying a `next` link to the
following page, page N none), both paginators issue exactly N GET requests and
accumulate the concatenation of all pages' `entry` collections, in page order
then in-page order. -/
theorem C1_chain_pagination (server : Server) (urls : List String)
    (pages : List (List Json)) (fuel : Nat)
    (hchain : ChainServer server urls pages) (hne : ∀ u ∈ urls, u ≠ "")
    (hfuel : urls.length ≤ fuel) :
    export_org_fetch server fuel urls.head? ([], 0, []) =
      .ok (some (pages.flatten, pages.length, [])) ∧
    fetch_all_data server fuel urls.head? ([], 0) =
      .ok (some (pages.flatten, pages.length)) := by
  have hlen := chainServer_length server urls pages hchain
  constructor
  · simpa [hlen] using export_org_fetch_chain server urls pages hchain hne ([], 0, []) fuel hfuel
  · simpa [hlen] using fetch_all_data_chain server urls pages hchain hne ([], 0) fuel hfuel

/-- C1 witness: a concrete two-page chain, both paginators issuing exactly two
requests and returning the two entries in order. -/
theorem C1_chain_pagination_witness :
    ChainServer demoChainServer ["pageA", "pageB"] [[demoEntry "o1"], [demoEntry "o2"]] ∧
    export_org_fetch demoChainServer 2 (some "pageA") ([], 0, []) =
      .ok (some ([demoEntry "o1", demoEntry "o2"], 2, [])) ∧
    fetch_all_data demoChainServer 2 (some "pageA") ([], 0) =
      .ok (some ([demoEntry "o1", demoEntry "o2"], 2)) := by
  have hchain : ChainServer demoChainServer ["pageA", "pageB"]
      [[demoEntry "o1"], [demoEntry "o2"]] :=
    ⟨fun _ => rfl, fun _ => rfl, trivial⟩
  refine ⟨hchain, ?_⟩
  have := C1_chain_pagination demoChainServer ["pageA", "pageB"]
    [[demoEntry "o1"], [demoEntry "o2"]] 2 hchain (by decide) (by decide)
  simpa using this

/-- `optField` with an absent value contributes no field. -/
@[simp] theorem optField_none (key : String) : optField key none = [] := rfl

/-- `optField` with a present value contributes exactly that field. -/
@[simp] theorem optField_some (key : String) (v : Json) : optField key (some v) = [(key, v)] := rfl

/-- The identifier comprehension over constructed identifier objects yields the
`value` fields, defaulting to the empty string. -/
theorem identifierValues_mk (vs : List (Option String)) :
    identifierValues (vs.map fun v => Json.obj (optField "value" (v.map Json.str))) =
      .ok (List.map Json.str (vs.map fun v => v.getD "")) := by
  induction vs with
  | nil => simp [identifierValues]
  | cons v vs ih =>
    cases v <;> simp [identifierValues, Json.pyGetD, Json.pyGet, lookupField, ih]

/-- `pyJoin` on a list of JSON strings is `joinStrings` on the strings. -/
theorem pyJoin_strs (sep : String) (l : List String) :
    pyJoin sep (List.map Json.str l) = .ok (joinStrings sep l) := by
  induction l with
  | nil => simp [pyJoin, joinStrings]
  | cons x xs ih =>
    cases xs with
    | nil => simp [pyJoin, joinStrings, Json.asString]
    | cons y ys =>
      simp [pyJoin, joinStrings, Json.asString] at ih ⊢
      rw [ih]
      rfl

/-- Composed-map variant of `pyJoin_strs`, as `simp` composes nested maps. -/
theorem pyJoin_strs_comp {a : Type} (sep : String) (f : a → String) (l : List a) :
    pyJoin sep (List.map (Json.str ∘ f) l) = .ok (joinStrings sep (List.map f l)) := by
  rw [← List.map_map, pyJoin_strs]

/-- C2: the organization flattener takes `id` and `name` from the resource,
defaulting to the empty string when absent, and joins the identifiers\x27 `value`
fields (default empty) with a comma and a space; absent fields never raise
(also when the whole `resource` key is absent). -/
theorem C2_org_flattener (oid oname : Option String) (vals : Option (List (Option String))) :
    flatten_org_entry (orgEntry oid oname vals) =
      .ok [oid.getD "", oname.getD "",
        joinStrings ", " ((vals.getD []).map fun v => v.getD "")] ∧
    flatten_org_entry (Json.obj []) = .ok ["", "", ""] := by
  constructor
  · cases oid <;> cases oname <;> cases vals <;>
      simp [flatten_org_entry, orgEntry, Json.pyGetD, Json.pyGet, lookupField,
        Json.asList, Json.pyStr, identifierValues_mk, identifierValues, pyJoin,
        pyJoin_strs, pyJoin_strs_comp, joinStrings]
  · simp [flatten_org_entry, Json.pyGetD, Json.pyGet, lookupField, Json.asList,
      identifierValues, pyJoin, Json.pyStr, joinStrings]

/-- The `url` access on a constructed extension. -/
@[simp] theorem mkExt_item_url (u : String) (vr : Option (Option String × Option String)) :
    (mkExt u vr).item "url" = .ok (Json.str u) := by
  simp [mkExt, lookupField]

/-- The `valueReference` get on a constructed extension. -/
@[simp] theorem mkExt_pyGet_valueReference (u : String)
    (vr : Option (Option String × Option String)) :
    (mkExt u vr).pyGet "valueReference" =
      .ok (vr.map fun dr => Json.obj (optField "display" (dr.1.map Json.str) ++
        optField "reference" (dr.2.map Json.str))) := by
  cases vr <;> simp [mkExt, lookupField]

/-- The extension scan over constructed extensions: one row per extension whose
`url` equals `network_url`, with the spec-described network-name fallback. -/
theorem extract_from_exts_mk (pr : Json) (pid : String)
    (hid : pr.item "id" = .ok (Json.str pid)) :
    ∀ exts : List (String × Option (Option String × Option String)),
    extract_from_exts pr (exts.map fun e => mkExt e.1 e.2) =
      .ok ((exts.filter fun e => decide (e.1 = network_url)).map
        fun e => ⟨Json.str pid, Json.str (specNetworkName e.2)⟩) := by
  intro exts
  induction exts with
  | nil => simp [extract_from_exts]
  | cons e es ih =>
    obtain ⟨u, vr⟩ := e
    by_cases hu : u = network_url
    · subst hu
      cases vr with
      | none =>
        simp [extract_from_exts, lookupField, Json.isStr, Json.pyGetD,
          hid, ih, specNetworkName, List.filter_cons]
      | some dr =>
        obtain ⟨d, r⟩ := dr
        cases d <;> cases r <;>
          simp [extract_from_exts, lookupField, Json.isStr, Json.pyGetD,
            hid, ih, specNetworkName, List.filter_cons]
    · simp [extract_from_exts, lookupField, Json.isStr, Json.pyGetD,
        hu, ih, List.filter_cons]

/-- `extract_networks` on a single constructed practitioner-role entry. -/
theorem extract_networks_mkPRole (pid : String)
    (exts : List (String × Option (Option String × Option String))) :
    extract_networks [mkPRole pid exts] =
      .ok ((exts.filter fun e => decide (e.1 = network_url)).map
        fun e => ⟨Json.str pid, Json.str (specNetworkName e.2)⟩) := by
  have hid : (Json.obj [("id", Json.str pid),
      ("extension", Json.arr (exts.map fun e => mkExt e.1 e.2))]).item "id" =
      .ok (Json.str pid) := by
    simp [lookupField]
  simp [extract_networks, extract_networks_entry, mkPRole, lookupField,
    Json.pyGetD, extract_from_exts_mk _ _ hid]

/-- C3: `extract_networks` emits exactly one output pair per extension whose
`url` exactly equals the network-reference constant; zero matching extensions
contribute zero pairs. -/
theorem C3_one_row_per_matching_extension (pid : String)
    (exts : List (String × Option (Option String × Option String)))
    (rows : List NetworkRow)
    (h : extract_networks [mkPRole pid exts] = .ok rows) :
    rows.length = exts.countP fun e => decide (e.1 = network_url) := by
  rw [extract_networks_mkPRole] at h
  injection h with h'
  subst h'
  simp [List.countP_eq_length_filter]

/-- C3 witness: a concrete entry with one matching and one non-matching
extension yields exactly one row. -/
theorem C3_one_row_per_matching_extension_witness :
    extract_networks [mkPRole "pr1"
        ([(network_url, some (some "Net A", none)), ("alt", none)] :
          List (String × Option (Option String × Option String)))] =
      .ok [⟨Json.str "pr1", Json.str "Net A"⟩] ∧
    ([(⟨Json.str "pr1", Json.str "Net A"⟩ : NetworkRow)]).length =
      List.countP (fun e => decide (e.1 = network_url))
        ([(network_url, some (some "Net A", none)), ("alt", none)] :
          List (String × Option (Option String × Option String))) := by
  have h : extract_networks [mkPRole "pr1"
      ([(network_url, some (some "Net A", none)), ("alt", none)] :
        List (String × Option (Option String × Option String)))] =
      .ok [⟨Json.str "pr1", Json.str "Net A"⟩] := by rfl
  exact ⟨h, C3_one_row_per_matching_extension "pr1" _ _ h⟩

/-- C4: the network name of a matching extension is the `valueReference`'s
`display`, else its `reference`, else the literal `"Unknown"` (in particular
`"Unknown"` when the `valueReference` has neither field or is absent). -/
theorem C4_network_name_fallback (pid : String)
    (vr : Option (Option String × Option String)) :
    extract_networks [mkPRole pid [(network_url, vr)]] =
      .ok [⟨Json.str pid, Json.str (specNetworkName vr)⟩] := by
  rw [extract_networks_mkPRole]
  simp

/-- `extract_networks` processes its input sequentially: the rows of a
concatenation are the rows of the parts, and the first fault wins. -/
theorem extract_networks_append (a b : List Json) :
    extract_networks (a ++ b) =
      extract_networks a >>= fun x => extract_networks b >>= fun y => .ok (x ++ y) := by
  induction a with
  | nil =>
    simp [extract_networks]
    cases extract_networks b <;> simp
  | cons p a' ih =>
    simp only [List.cons_append, extract_networks]
    cases extract_networks_entry p <;> simp
    rw [ih]
    cases extract_networks a' <;> simp


/-- C5: an input entry lacking the `resource` key makes `extract_networks`
raise a `KeyError` (after any previously processed entries), whereas the
organization flattener tolerates the same missing key and yields an all-empty
record. -/
theorem C5_missing_resource_faults (fs : List (String × Json)) (pre rest : List Json)
    (rows : List NetworkRow) (hres : lookupField fs "resource" = none)
    (hpre : extract_networks pre = .ok rows) :
    extract_networks (pre ++ Json.obj fs :: rest) = .error (.keyError "resource") ∧
    flatten_org_entry (Json.obj fs) = .ok ["", "", ""] := by
  constructor
  · rw [extract_networks_append, hpre]
    simp [extract_networks, extract_networks_entry, hres]
  · simp [flatten_org_entry, Json.pyGetD, hres, lookupField, identifierValues, pyJoin,
      Json.pyStr, joinStrings]

/-- C5 witness: a concrete entry without `resource` crashes the extractor and
not the flattener. -/
theorem C5_missing_resource_faults_witness :
    lookupField [("id", Json.str "x")] "resource" = none ∧
    extract_networks [] = .ok [] ∧
    extract_networks ([] ++ Json.obj [("id", Json.str "x")] :: []) =
      .error (.keyError "resource") ∧
    flatten_org_entry (Json.obj [("id", Json.str "x")]) = .ok ["", "", ""] := by
  refine ⟨rfl, rfl, ?_⟩
  exact C5_missing_resource_faults [("id", Json.str "x")] [] [] [] rfl rfl

/-- The organization writer produces exactly one data row per entry. -/
theorem export_org_rows_length :
    ∀ (entries : List Json) (rows : List (List String)),
    export_org_rows entries = .ok rows → rows.length = entries.length := by
  intro entries
  induction entries with
  | nil =>
    intro rows h
    simp [export_org_rows] at h
    simp [← h]
  | cons e es ih =>
    intro rows h
    simp only [export_org_rows] at h
    cases hf : flatten_org_entry e with
    | error e' => rw [hf] at h; simp at h
    | ok r =>
      rw [hf] at h
      cases hr : export_org_rows es with
      | error e' => rw [hr] at h; simp at h
      | ok rest =>
        rw [hr] at h
        simp at h
        simp [← h, ih rest hr]

/-- C6: both writers put the exact fixed header on the first line and one line
per record below it; zero records give a file holding exactly the header. -/
theorem C6_writer_layout (entries : List Json) (file : List String)
    (networks : List NetworkRow) (h : export_org_write entries = .ok file) :
    file.head? = some "id,name,identifiers" ∧
    file.length = entries.length + 1 ∧
    export_org_write [] = .ok ["id,name,identifiers"] ∧
    (write_networks networks).head? = some "practitionerRole,network" ∧
    (write_networks networks).length = networks.length + 1 ∧
    write_networks [] = ["practitionerRole,network"] := by
  have hdr1 : csvRow ["id", "name", "identifiers"] = "id,name,identifiers" := by rfl
  have hdr2 : csvRow ["practitionerRole", "network"] = "practitionerRole,network" := by rfl
  simp only [export_org_write] at h
  cases hr : export_org_rows entries with
  | error e' => rw [hr] at h; simp at h
  | ok rows =>
    rw [hr] at h
    simp at h
    refine ⟨?_, ?_, ?_, ?_, ?_, ?_⟩
    · simp [← h, hdr1]
    · simp [← h, export_org_rows_length entries rows hr]
    · simp [export_org_write, export_org_rows, hdr1]
    · simp [write_networks, hdr2]
    · simp [write_networks]
    · simp [write_networks, hdr2]

/-- C6 witness: one empty organization entry and one network record, with the
concrete files spelled out. -/
theorem C6_writer_layout_witness :
    export_org_write [Json.obj []] = .ok ["id,name,identifiers", ",,"] ∧
    (["id,name,identifiers", ",,"].head? = some "id,name,identifiers" ∧
     (["id,name,identifiers", ",,"] : List String).length = [Json.obj []].length + 1 ∧
     export_org_write [] = .ok ["id,name,identifiers"] ∧
     (write_networks [⟨Json.str "pr", Json.str "Net"⟩]).head? =
       some "practitionerRole,network" ∧
     (write_networks [⟨Json.str "pr", Json.str "Net"⟩]).length =
       ([(⟨Json.str "pr", Json.str "Net"⟩ : NetworkRow)]).length + 1 ∧
     write_networks [] = ["practitionerRole,network"]) := by
  have h : export_org_write [Json.obj []] = .ok ["id,name,identifiers", ",,"] := by rfl
  exact ⟨h, C6_writer_layout [Json.obj []] ["id,name,identifiers", ",,"]
    [⟨Json.str "pr", Json.str "Net"⟩] h⟩

/-- C7: a non-200 page makes the organization paginator print the status code
and stop, keeping what was accumulated; on the first page the pipeline still
writes a file holding only the header row, without crashing. -/
theorem C7_org_non200_keeps_accumulated (server : Server) (fuel : Nat) (url : String)
    (entries : List Json) (reqs : Nat) (log : List String)
    (hurl : url ≠ "") (hstat : (server url orgHeaders).status_code ≠ 200) :
    export_org_fetch server (fuel + 1) (some url) (entries, reqs, log) =
      .ok (some (entries, reqs + 1,
        log ++ ["Failed to retrieve data: " ++
          toString (server url orgHeaders).status_code])) ∧
    export_org_id_to_csv server (fuel + 1) url "organization_ids.csv" =
      .ok (some (["id,name,identifiers"], 1,
        ["Failed to retrieve data: " ++ toString (server url orgHeaders).status_code,
         "Data has been exported to organization_ids.csv"])) := by
  have h1 : ∀ (es : List Json) (r : Nat) (lg : List String),
      export_org_fetch server (fuel + 1) (some url) (es, r, lg) =
        .ok (some (es, r + 1,
          lg ++ ["Failed to retrieve data: " ++
            toString (server url orgHeaders).status_code])) := by
    intro es r lg
    rw [export_org_fetch]
    simp [hurl, hstat]
  refine ⟨h1 entries reqs log, ?_⟩
  simp only [export_org_id_to_csv]
  rw [h1 [] 0 []]
  have hdr : csvRow ["id", "name", "identifiers"] = "id,name,identifiers" := by rfl
  simp [export_org_write, export_org_rows, hdr]

/-- C7 witness: a 500 on the first page gives a header-only file and the
printed status message. -/
theorem C7_org_non200_keeps_accumulated_witness :
    ("start" : String) ≠ "" ∧
    (demoFailServer "start" orgHeaders).status_code ≠ 200 ∧
    export_org_fetch demoFailServer 1 (some "start") ([], 0, []) =
      .ok (some ([], 1, ["Failed to retrieve data: 500"])) ∧
    export_org_id_to_csv demoFailServer 1 "start" "organization_ids.csv" =
      .ok (some (["id,name,identifiers"], 1,
        ["Failed to retrieve data: 500",
         "Data has been exported to organization_ids.csv"])) := by
  refine ⟨by decide, by decide, ?_, ?_⟩
  · exact (C7_org_non200_keeps_accumulated demoFailServer 0 "start" [] 0 []
      (by decide) (by decide)).1
  · exact (C7_org_non200_keeps_accumulated demoFailServer 0 "start" [] 0 []
      (by decide) (by decide)).2

/-- C8: a non-200 page makes `fetch_all_data` raise an exception carrying the
status code, and a failing fetch makes the network pipeline print the error
and abort with no file written. -/
theorem C8_net_non200_aborts (server : Server) (fuel fuel2 : Nat) (url url2 : String)
    (all_data : List Json) (reqs : Nat) (e : PyErr)
    (hurl : url ≠ "") (hstat : (server url []).status_code ≠ 200)
    (hrun : fetch_all_data server fuel2 (some url2) ([], 0) = .error e) :
    fetch_all_data server (fuel + 1) (some url) (all_data, reqs) =
      .error (.exception ("Failed to fetch data. Status code: " ++
        toString (server url []).status_code)) ∧
    run_network_pipeline server fuel2 url2 = some (none, [e.printed]) := by
  constructor
  · rw [fetch_all_data]
    simp [hurl, hstat]
  · simp [run_network_pipeline, hrun]

/-- C8 witness: a 500 response aborts the network pipeline with the printed
exception message and no file. -/
theorem C8_net_non200_aborts_witness :
    ("start" : String) ≠ "" ∧
    (demoFailServer "start" []).status_code ≠ 200 ∧
    fetch_all_data demoFailServer 1 (some "start") ([], 0) =
      .error (.exception "Failed to fetch data. Status code: 500") ∧
    run_network_pipeline demoFailServer 1 "start" =
      some (none, ["Failed to fetch data. Status code: 500"]) := by
  have hrun : fetch_all_data demoFailServer 1 (some "start") ([], 0) =
      .error (.exception "Failed to fetch data. Status code: 500") := by rfl
  refine ⟨by decide, by decide, hrun, ?_⟩
  exact (C8_net_non200_aborts demoFailServer 0 1 "start" "start" [] 0
    (.exception "Failed to fetch data. Status code: 500")
    (by decide) (by decide) hrun).2

/-- The organization loop exits immediately once the URL is exhausted. -/
@[simp] theorem export_org_fetch_none (server : Server) (fuel : Nat)
    (st : List Json × Nat × List String) :
    export_org_fetch server fuel none st = .ok (some st) := by
  rw [export_org_fetch]

/-- The network loop exits immediately once the URL is exhausted. -/
@[simp] theorem fetch_all_data_none (server : Server) (fuel : Nat)
    (st : List Json × Nat) :
    fetch_all_data server fuel none st = .ok (some st) := by
  rw [fetch_all_data]

/-- C9: a link object without the `relation` key crashes the network paginator
with a `KeyError` but is skipped by the organization paginator, which carries
on. -/
theorem C9_link_relation_asymmetry (server : Server) (url : String)
    (entries : List Json) (fs : List (String × Json)) (rest : List Json)
    (hurl : url ≠ "")
    (hserver : ∀ hs, server url hs = ⟨200, Json.obj [("entry", Json.arr entries),
      ("link", Json.arr [Json.obj fs])]⟩)
    (hrel : lookupField fs "relation" = none) :
    findNextNet (Json.obj fs :: rest) = .error (.keyError "relation") ∧
    findNextOrg (Json.obj fs :: rest) = findNextOrg rest ∧
    fetch_all_data server 1 (some url) ([], 0) = .error (.keyError "relation") ∧
    export_org_fetch server 1 (some url) ([], 0, []) = .ok (some (entries, 1, [])) := by
  have hnet : ∀ r : List Json, findNextNet (Json.obj fs :: r) = .error (.keyError "relation") := by
    intro r
    simp [findNextNet, hrel]
  have horg : ∀ r : List Json, findNextOrg (Json.obj fs :: r) = findNextOrg r := by
    intro r
    simp [findNextOrg, hrel, Json.isStr]
  refine ⟨hnet rest, horg rest, ?_, ?_⟩
  · rw [fetch_all_data]
    simp [hurl, hserver [], Json.hasKey, lookupField, Json.pyGetD, hnet]
  · rw [export_org_fetch]
    simp [hurl, hserver orgHeaders, lookupField, Json.pyGetD, findNextOrg, hrel, Json.isStr]

/-- C9 witness: a concrete page whose only link object has just a `url` key. -/
theorem C9_link_relation_asymmetry_witness :
    lookupField [("url", Json.str "loop")] "relation" = none ∧
    findNextNet [Json.obj [("url", Json.str "loop")]] = .error (.keyError "relation") ∧
    findNextOrg [Json.obj [("url", Json.str "loop")]] = findNextOrg [] ∧
    fetch_all_data demoBadLinkServer 1 (some "u") ([], 0) =
      .error (.keyError "relation") ∧
    export_org_fetch demoBadLinkServer 1 (some "u") ([], 0, []) =
      .ok (some ([demoEntry "x"], 1, [])) := by
  refine ⟨rfl, ?_⟩
  exact C9_link_relation_asymmetry demoBadLinkServer "u" [demoEntry "x"]
    [("url", Json.str "loop")] [] (by decide) (fun _ => rfl) rfl

/-- C10: `extract_networks` also performs unguarded accesses on each
extension's `url` key and, for a matching extension, on the resource's `id`
key: either being absent raises a `KeyError`. -/
theorem C10_unguarded_url_and_id (extFs : List (String × Json)) (pid : String)
    (vr : Option (Option String × Option String))
    (hurl : lookupField extFs "url" = none) :
    extract_networks [Json.obj [("resource", Json.obj [("id", Json.str pid),
      ("extension", Json.arr [Json.obj extFs])])]] = .error (.keyError "url") ∧
    extract_networks [Json.obj [("resource", Json.obj
      [("extension", Json.arr [mkExt network_url vr])])]] = .error (.keyError "id") := by
  constructor
  · simp [extract_networks, extract_networks_entry, Json.pyGetD, lookupField,
      extract_from_exts, hurl]
  · cases vr <;>
      simp [extract_networks, extract_networks_entry, Json.pyGetD, lookupField,
        extract_from_exts, Json.isStr]

/-- C10 witness: an extension with only an `x` key, and a resource with a
matching extension but no `id`. -/
theorem C10_unguarded_url_and_id_witness :
    lookupField [("x", Json.str "y")] "url" = none ∧
    (extract_networks [Json.obj [("resource", Json.obj [("id", Json.str "p"),
      ("extension", Json.arr [Json.obj [("x", Json.str "y")]])])]] =
        .error (.keyError "url") ∧
     extract_networks [Json.obj [("resource", Json.obj
      [("extension", Json.arr [mkExt network_url none])])]] =
        .error (.keyError "id")) := by
  exact ⟨rfl, C10_unguarded_url_and_id [("x", Json.str "y")] "p" none rfl⟩
